import Mathlib

/-!
Shallow embedding of the route-computation and multi-modal optimization core of
the perishables-pathfinder-optimizer repository, together with proofs of the
frozen specification claims.

Sources embedded:
* `src/src/data/bengaluruLocations.ts` — the `RoutingService` part
  (`TRANSPORT_MODES`, `calculateRoute`, `calculateStraightLineDistance`,
  `optimizeRoute`) and the `GeocodingService` part (`geocode`,
  `reverseGeocode`, `parseInput`, `isWithinBengaluru`).
* `src/src/components/supply-chain/TransportOptimizer.tsx` —
  `optimizeTransportModes` / `applyOptimization`.

JavaScript numbers are modelled as real numbers; `Math.round` is `round`
(`⌊x + 1/2⌋`, matching JS round-half-up), `Math.atan2` is modelled piecewise
via `Real.arctan`.  External HTTP backends are modelled as explicit oracle
parameters: the behaviour of the network is an input of each embedded
operation, so one Lean function covers every possible backend outcome.
The process-wide geocode cache is modelled by explicit state passing.
-/

noncomputable section

namespace Perishables

open Real

/-! ## JS math primitives -/

/-- `Math.atan2(y, x)` of JavaScript, modelled piecewise via `Real.arctan`.
(The embedded haversine code only ever calls it with both arguments
nonnegative.) -/
def atan2 (y x : ℝ) : ℝ :=
  if 0 < x then Real.arctan (y / x)
  else if x < 0 ∧ 0 ≤ y then Real.arctan (y / x) + π
  else if x < 0 ∧ y < 0 then Real.arctan (y / x) - π
  else if x = 0 ∧ 0 < y then π / 2
  else if x = 0 ∧ y < 0 then -(π / 2)
  else 0

/-! ## Transport mode registry (`TRANSPORT_MODES` in `routing.ts`) -/

/-- The closed enumeration of transport modes
(`'driving-hgv' | 'driving-car' | 'cycling' | 'foot-walking'`). -/
inductive TransportMode
  | drivingHgv
  | drivingCar
  | cycling
  | footWalking
deriving DecidableEq, Repr

/-- Per-mode configuration record (`TransportModeConfig`). -/
structure TransportModeConfig where
  name : String
  icon : String
  costPerKm : ℝ
  maxSpeed : ℝ
  description : String
  color : String

/-- The static `TRANSPORT_MODES` table. -/
def TRANSPORT_MODES : TransportMode → TransportModeConfig
  | .drivingHgv =>
      ⟨"Heavy Goods Vehicle", "🚚", 25, 60, "Large trucks for bulk transport", "#DC2626"⟩
  | .drivingCar =>
      ⟨"Light Commercial Vehicle", "🚐", 15, 80, "Vans and small trucks", "#2563EB"⟩
  | .cycling =>
      ⟨"Bicycle Delivery", "🚴", 5, 15, "Eco-friendly last mile delivery", "#16A34A"⟩
  | .footWalking =>
      ⟨"Walking Delivery", "🚶", 2, 5, "Ultra-short distance delivery", "#7C3AED"⟩

/-- Iteration order of `Object.keys(TRANSPORT_MODES)` — JS object-literal
insertion order. -/
def TRANSPORT_MODE_KEYS : List TransportMode :=
  [.drivingHgv, .drivingCar, .cycling, .footWalking]

/-! ## Geometry (`RoutePoint`, `calculateStraightLineDistance`) -/

/-- A WGS84 coordinate pair (`RoutePoint` interface). -/
@[ext]
structure RoutePoint where
  lat : ℝ
  lng : ℝ

/-- `RoutingService.calculateStraightLineDistance` — the haversine formula with
Earth radius 6,371,000 m, transcribed term by term from the source. -/
def calculateStraightLineDistance (start endp : RoutePoint) : ℝ :=
  let R : ℝ := 6371000
  let lat1Rad := start.lat * π / 180
  let lat2Rad := endp.lat * π / 180
  let deltaLatRad := (endp.lat - start.lat) * π / 180
  let deltaLngRad := (endp.lng - start.lng) * π / 180
  let a := Real.sin (deltaLatRad / 2) * Real.sin (deltaLatRad / 2) +
      Real.cos lat1Rad * Real.cos lat2Rad *
      Real.sin (deltaLngRad / 2) * Real.sin (deltaLngRad / 2)
  let c := 2 * atan2 (Real.sqrt a) (Real.sqrt (1 - a))
  R * c

/-- The haversine `a` term, named for the proofs below. -/
def havA (start endp : RoutePoint) : ℝ :=
  Real.sin ((endp.lat - start.lat) * π / 180 / 2) *
      Real.sin ((endp.lat - start.lat) * π / 180 / 2) +
    Real.cos (start.lat * π / 180) * Real.cos (endp.lat * π / 180) *
      Real.sin ((endp.lng - start.lng) * π / 180 / 2) *
      Real.sin ((endp.lng - start.lng) * π / 180 / 2)

/-! ## Route results and `RoutingService.calculateRoute` -/

/-- `RouteSegment` interface. -/
structure RouteSegment where
  distance : ℝ
  duration : ℝ
  instructions : List String
  geometry : List RoutePoint

/-- `RouteResponse` interface. -/
structure RouteResponse where
  distance : ℝ
  duration : ℝ
  geometry : List RoutePoint
  segments : List RouteSegment
  cost : ℝ

/-- One step of an OpenRouteService response segment
(`{instruction, way_points}`). -/
structure BackendStep where
  instruction : String
  way_points : List ℕ

/-- One segment of an OpenRouteService response. -/
structure BackendSegment where
  distance : ℝ
  duration : ℝ
  steps : List BackendStep

/-- One candidate route of an OpenRouteService response
(`{summary, geometry.coordinates, segments}`); coordinates are `[lng, lat]`
pairs. -/
structure BackendRoute where
  summaryDistance : ℝ
  summaryDuration : ℝ
  coordinates : List (ℝ × ℝ)
  segments : List BackendSegment

/-- Outcome of the routing backend call, covering the three failure sources the
`try` block can hit: a network error thrown by `fetch`, a non-success HTTP
status (`!response.ok`), or a successful response whose `routes` array may be
empty. -/
inductive BackendResult
  | networkError
  | httpNotOk (status : ℕ)
  | ok (routes : List BackendRoute)

/-- `Number.prototype.toFixed(1)` for the nonnegative distances the fallback
formats: round to tenths and print one fraction digit. -/
def toFixed1 (x : ℝ) : String :=
  let n := round (x * 10)
  toString (n / 10) ++ "." ++ toString (n % 10)

/-- The fallback's generated instruction text,
`` `Travel ${(distance / 1000).toFixed(1)}km from start to destination` ``. -/
def mkInstruction (distanceKm : ℝ) : String :=
  "Travel " ++ toFixed1 distanceKm ++ "km from start to destination"

/-- The `catch` branch of `calculateRoute`: straight-line fallback built from
the haversine distance and the mode's speed/cost table. -/
def fallbackRoute (start endp : RoutePoint) (transportMode : TransportMode) :
    RouteResponse :=
  let distance := calculateStraightLineDistance start endp
  let modeConfig := TRANSPORT_MODES transportMode
  let duration := distance / 1000 / modeConfig.maxSpeed * 3600
  let cost := round (distance / 1000 * modeConfig.costPerKm)
  { distance := distance
    duration := duration
    geometry := [start, endp]
    segments := [{ distance := distance, duration := duration,
                   instructions := [mkInstruction (distance / 1000)],
                   geometry := [start, endp] }]
    cost := (cost : ℝ) }

/-- `RoutingService.calculateRoute`.  The external backend's behaviour is an
explicit argument; the `try` path handles a successful response with at least
one candidate route, every other outcome takes the `catch` fallback.  The
function is total: it never fails, for any backend outcome. -/
def calculateRoute (backend : BackendResult) (start endp : RoutePoint)
    (transportMode : TransportMode) : RouteResponse :=
  match backend with
  | .ok (route :: _) =>
      let modeConfig := TRANSPORT_MODES transportMode
      let distanceKm := route.summaryDistance / 1000
      let durationHours := route.summaryDuration / 3600
      let baseCost := distanceKm * modeConfig.costPerKm
      let timeCost := durationHours * 50
      let totalCost := round (baseCost + timeCost)
      let geometry := route.coordinates.map (fun coord => RoutePoint.mk coord.2 coord.1)
      let segments := route.segments.map (fun segment =>
        { distance := segment.distance
          duration := segment.duration
          instructions := segment.steps.map (fun step => step.instruction)
          geometry := (segment.steps.map (fun step =>
            step.way_points.map (fun wpIndex => geometry.getD wpIndex ⟨0, 0⟩))).flatten
          : RouteSegment })
      { distance := route.summaryDistance
        duration := route.summaryDuration
        geometry := geometry
        segments := segments
        cost := (totalCost : ℝ) }
  | _ => fallbackRoute start endp transportMode

/-! ## Tour sequencing (`RoutingService.optimizeRoute`) -/

/-- Result record of `optimizeRoute`. -/
structure OptimizeRouteResult where
  optimizedOrder : List ℕ
  totalDistance : ℝ
  totalDuration : ℝ
  totalCost : ℝ

/-- The inner `for` loop of `optimizeRoute`'s `while` body: scan the rest of
`unvisited` keeping the index with the strictly smaller distance (the
first-encountered index wins ties). -/
def findNearest (dist : ℕ → ℝ) (head : ℕ) (rest : List ℕ) : ℕ × ℝ :=
  rest.foldl
    (fun best i => if dist i < best.2 then (i, dist i) else best)
    (head, dist head)

/-- The `while (unvisited.length > 0)` loop of `optimizeRoute`, with the loop
state (`current`, `unvisited`, `order`, `totalDistance`, `totalDuration`)
passed explicitly.  Each iteration appends the nearest unvisited index to
`order` and filters it out of `unvisited` (`unvisited.filter(i => i !== nearest)`). -/
def nnLoop (points : List RoutePoint) (maxSpeed : ℝ) :
    ℕ → List ℕ → List ℕ → ℝ → ℝ → List ℕ × ℝ × ℝ
  | _, [], order, totalDistance, totalDuration => (order, totalDistance, totalDuration)
  | current, h :: t, order, totalDistance, totalDuration =>
      let nd := findNearest
        (fun i => calculateStraightLineDistance (points.getD current ⟨0, 0⟩)
          (points.getD i ⟨0, 0⟩)) h t
      nnLoop points maxSpeed nd.1 ((h :: t).filter (fun i => i != nd.1))
        (order ++ [nd.1]) (totalDistance + nd.2)
        (totalDuration + nd.2 / 1000 / maxSpeed * 3600)
  termination_by _ unvisited _ _ _ => unvisited.length
  decreasing_by
    have key : ∀ (d : ℕ → ℝ) (l : List ℕ) (init : ℕ × ℝ) (acc : List ℕ),
        init.1 ∈ acc → (∀ i ∈ l, i ∈ acc) →
        (l.foldl (fun best i => if d i < best.2 then (i, d i) else best) init).1 ∈ acc := by
      intro d l
      induction l with
      | nil => intro init acc h1 _; simpa using h1
      | cons x xs ih =>
          intro init acc h1 h2
          simp only [List.foldl_cons]
          by_cases hx : d x < init.2
          · rw [if_pos hx]
            exact ih _ _ (h2 x (List.mem_cons_self x xs))
              (fun i hi => h2 i (List.mem_cons_of_mem x hi))
          · rw [if_neg hx]
            exact ih _ _ h1 (fun i hi => h2 i (List.mem_cons_of_mem x hi))
    have hmem : nd.1 ∈ h :: t := key _ t _ (h :: t) (List.mem_cons_self h t)
      (fun i hi => List.mem_cons_of_mem h hi)
    simp only [List.length_filter_lt_length_iff_exists]
    exact ⟨nd.1, hmem, by simp only [bne_self_eq_false]; exact Bool.false_ne_true⟩

/-- `RoutingService.optimizeRoute`: identity order with zero totals for at most
two points, otherwise greedy nearest-neighbor from index 0. -/
def optimizeRoute (points : List RoutePoint) (transportMode : TransportMode) :
    OptimizeRouteResult :=
  if points.length ≤ 2 then
    { optimizedOrder := List.range points.length
      totalDistance := 0, totalDuration := 0, totalCost := 0 }
  else
    let r := nnLoop points (TRANSPORT_MODES transportMode).maxSpeed
      0 ((List.range points.length).drop 1) [0] 0 0
    { optimizedOrder := r.1
      totalDistance := r.2.1
      totalDuration := r.2.2
      totalCost := (round (r.2.1 / 1000 * (TRANSPORT_MODES transportMode).costPerKm) : ℝ) }

/-! ## Network optimizer (`TransportOptimizer.tsx`, `optimizeTransportModes`) -/

/-- A network node as consumed by the optimizer: referenced by `name`, with
`x` = longitude and `y` = latitude. -/
structure Node where
  name : String
  x : ℝ
  y : ℝ

/-- A directed network edge (`from`/`to` are node names; `from`/`to` are Lean
keywords, hence `fromName`/`toName`). -/
structure Edge where
  fromName : String
  toName : String
  distanceKm : ℝ
  travelTimeHr : ℝ
  cost : ℝ
  transportMode : Option TransportMode

/-- One per-mode evaluation of an edge
(`{mode, cost, time: duration/3600, distance: distance/1000}`). -/
structure RouteOption where
  mode : TransportMode
  cost : ℝ
  time : ℝ
  distance : ℝ

/-- The optimization objective selector (`optimizationMode` in the source). -/
inductive Objective
  | cost
  | time
  | distance
  | balanced
deriving DecidableEq

/-- One entry of `OptimizationResult['recommendations']`. -/
structure Recommendation where
  fromName : String
  toName : String
  currentMode : TransportMode
  recommendedMode : TransportMode
  reason : String
  savings : ℝ

/-- `Math.max(...)` over a nonempty list of JS numbers (the call sites spread a
nonempty array; the `[]` branch is unreachable there). -/
def maxOf : List ℝ → ℝ
  | [] => 0
  | h :: t => t.foldl max h

/-- The balanced-objective weighted score of one option:
`(cost/maxCost)*0.4 + (time/maxTime)*0.3 + (distance/maxDistance)*0.3`, where
each `max*` ranges over this edge's evaluated options. -/
def balancedScore (options : List RouteOption) (o : RouteOption) : ℝ :=
  o.cost / maxOf (options.map RouteOption.cost) * 0.4 +
    o.time / maxOf (options.map RouteOption.time) * 0.3 +
    o.distance / maxOf (options.map RouteOption.distance) * 0.3

/-- The `switch (optimizationMode)` selection: a `reduce` over `validOptions`
starting from its first element, keeping the strictly better option (so the
first-encountered option wins ties). -/
def bestOption (objective : Objective) (options : List RouteOption) : RouteOption :=
  match options with
  | [] => ⟨.drivingHgv, 0, 0, 0⟩
  | o :: os =>
      match objective with
      | .cost => os.foldl (fun best option =>
          if option.cost < best.cost then option else best) o
      | .time => os.foldl (fun best option =>
          if option.time < best.time then option else best) o
      | .distance => os.foldl (fun best option =>
          if option.distance < best.distance then option else best) o
      | .balanced => os.foldl (fun best option =>
          if balancedScore (o :: os) option < balancedScore (o :: os) best
          then option else best) o

/-- The per-edge fan-out over all registered transport modes: one
`calculateRoute` evaluation per mode (the route oracle stands for
`routingService.calculateRoute` together with whatever the routing backend
does on that call). -/
def Oracle : Type :=
  RoutePoint → RoutePoint → TransportMode → RouteResponse

/-- Evaluate every registered transport mode on one edge's endpoints. -/
def evalOptions (oracle : Oracle) (fromNode toNode : Node) : List RouteOption :=
  TRANSPORT_MODE_KEYS.map (fun mode =>
    let result := oracle ⟨fromNode.y, fromNode.x⟩ ⟨toNode.y, toNode.x⟩ mode
    { mode := mode
      cost := result.cost
      time := result.duration / 3600
      distance := result.distance / 1000 : RouteOption })

/-- The `reason` string set alongside the selection. -/
def reasonFor : Objective → String
  | .cost => "Lowest cost option"
  | .time => "Fastest delivery time"
  | .distance => "Shortest distance"
  | .balanced => "Best balanced option"

/-- The `savings` value pushed with a recommendation, per objective. -/
def savingsFor (objective : Objective) (costSaving timeSaving distanceSaving : ℝ) : ℝ :=
  match objective with
  | .cost => costSaving
  | .time => timeSaving
  | .distance => distanceSaving
  | .balanced => costSaving + timeSaving * 50 + distanceSaving * 10

/-- One iteration of the `for (const edge of edges)` loop: resolve both
endpoint nodes by name (skip the edge if either is missing), evaluate all
modes, pick the best option for the objective, and emit a recommendation
together with its three savings deltas exactly when the selected mode differs
from the edge's current mode (default `driving-hgv`) and at least one delta is
strictly positive. -/
def processEdge (nodes : List Node) (objective : Objective) (oracle : Oracle)
    (edge : Edge) : Option (Recommendation × ℝ × ℝ × ℝ) :=
  match nodes.find? (fun n => n.name == edge.fromName),
      nodes.find? (fun n => n.name == edge.toName) with
  | some fromNode, some toNode =>
      match evalOptions oracle fromNode toNode with
      | [] => none
      | o :: os =>
          let best := bestOption objective (o :: os)
          let currentMode := edge.transportMode.getD .drivingHgv
          if best.mode ≠ currentMode then
            let costSaving := edge.cost - best.cost
            let timeSaving := edge.travelTimeHr - best.time
            let distanceSaving := edge.distanceKm - best.distance
            if costSaving > 0 ∨ timeSaving > 0 ∨ distanceSaving > 0 then
              some (⟨edge.fromName, edge.toName, currentMode, best.mode,
                reasonFor objective,
                savingsFor objective costSaving timeSaving distanceSaving⟩,
                costSaving, timeSaving, distanceSaving)
            else none
          else none
  | _, _ => none

/-- `OptimizationResult` as assembled by `optimizeTransportModes`. -/
structure OptimizationResult where
  mode : Objective
  totalCost : ℝ
  totalTime : ℝ
  totalDistance : ℝ
  savingsCost : ℝ
  savingsTime : ℝ
  savingsDistance : ℝ
  recommendations : List Recommendation

/-- `optimizeTransportModes`: fold `processEdge` over the edge list in order,
collecting recommendations and summing the three savings deltas of every
emitted recommendation; current-network totals are the unweighted sums of the
edges' existing cost/time/distance (`calculateCurrentMetrics`). -/
def optimizeTransportModes (edges : List Edge) (nodes : List Node)
    (objective : Objective) (oracle : Oracle) : OptimizationResult :=
  let contribs := edges.filterMap (processEdge nodes objective oracle)
  let totalCostSavings := (contribs.map (fun c => c.2.1)).sum
  let totalTimeSavings := (contribs.map (fun c => c.2.2.1)).sum
  let totalDistanceSavings := (contribs.map (fun c => c.2.2.2)).sum
  { mode := objective
    totalCost := (edges.map Edge.cost).sum - totalCostSavings
    totalTime := (edges.map Edge.travelTimeHr).sum - totalTimeSavings
    totalDistance := (edges.map Edge.distanceKm).sum - totalDistanceSavings
    savingsCost := totalCostSavings
    savingsTime := totalTimeSavings
    savingsDistance := totalDistanceSavings
    recommendations := contribs.map (fun c => c.1) }

/-! ## Geocoding service (`GeocodingService` in `geocoding.ts`) -/

/-- The optional address-detail fields of a Nominatim result. -/
structure GeoAddress where
  house_number : Option String
  road : Option String
  suburb : Option String
  city : Option String
  state : Option String
  postcode : Option String
  country : Option String
deriving DecidableEq

/-- `{}` — the default used when the backend item has no `address`. -/
def emptyAddress : GeoAddress :=
  ⟨none, none, none, none, none, none, none⟩

/-- `GeocodingResult` interface. -/
structure GeocodingResult where
  lat : ℝ
  lng : ℝ
  display_name : String
  address : GeoAddress
  place_id : String
  importance : ℝ
  type : String

/-- One raw item of a Nominatim search response, after the numeric fields have
been read (`parseFloat(item.lat)` etc.); `address`, `importance` and `type`
may be absent (`item.address || {}`, `item.importance || 0`,
`item.type || 'unknown'`). -/
structure RawGeoItem where
  lat : ℝ
  lng : ℝ
  display_name : String
  address : Option GeoAddress
  place_id : String
  importance : Option ℝ
  type : Option String

/-- Outcome of one geocoding backend call: any network error, thrown parse
error or non-success HTTP status is `failure`; otherwise the item list. -/
inductive GeoBackendResult
  | failure
  | ok (items : List RawGeoItem)

/-- The `options` argument of `geocode`
(`{limit?, countrycodes?, bounded?, viewbox?}`). -/
structure GeoOptions where
  limit : Option ℕ
  countrycodes : Option String
  bounded : Option Bool
  viewbox : Option String
deriving DecidableEq

/-- `GeocodingService.isWithinBengaluru`: inclusive bounding-box test against
`12.7342 ≤ lat ≤ 13.1394 ∧ 77.4272 ≤ lng ≤ 77.7814`. -/
def isWithinBengaluru (lat lng : ℝ) : Bool :=
  decide (12.7342 ≤ lat ∧ lat ≤ 13.1394 ∧ 77.4272 ≤ lng ∧ lng ≤ 77.7814)

/-- Map one raw backend item to a `GeocodingResult`, applying the source's
defaults for absent fields. -/
def mapRawItem (item : RawGeoItem) : GeocodingResult :=
  { lat := item.lat
    lng := item.lng
    display_name := item.display_name
    address := item.address.getD emptyAddress
    place_id := item.place_id
    importance := item.importance.getD 0
    type := item.type.getD "unknown" }

/-- The forward-geocode cache (`private cache: Map<string, GeocodingResult[]>`),
modelled as a partial map.  The source keys it by the string
`` `${query}-${JSON.stringify(options)}` ``; the pair `(query, options)` is
that key up to the injective rendering of `JSON.stringify` on the four-field
options object. -/
def CacheMap : Type :=
  String × GeoOptions → Option (List GeocodingResult)

/-- Result of one `geocode` call: the returned list, the cache state after the
call, and whether the backend was contacted (for the stub-counter property). -/
structure GeocodeOutcome where
  results : List GeocodingResult
  cache : CacheMap
  backendCalled : Bool

/-- `GeocodingService.geocode` with the process-wide cache passed explicitly
and the Nominatim backend as an oracle.  Cache hit: return the cached list
without contacting the backend.  Miss: contact the backend; on failure return
`[]` and leave the cache unchanged; on success map + filter the items to the
Bengaluru region, write the filtered list to the cache, and return it. -/
def geocode (backend : String → GeoOptions → GeoBackendResult) (cache : CacheMap)
    (query : String) (options : GeoOptions) : GeocodeOutcome :=
  match cache (query, options) with
  | some cached => ⟨cached, cache, false⟩
  | none =>
      match backend query options with
      | .failure => ⟨[], cache, true⟩
      | .ok items =>
          let results := items.map mapRawItem
          let filteredResults := results.filter (fun r => isWithinBengaluru r.lat r.lng)
          ⟨filteredResults,
            fun k => if k = (query, options) then some filteredResults else cache k,
            true⟩

/-! ## Input classification (`GeocodingService.parseInput`) -/

/-- The character class `\s` of JS regexps, restricted to the ASCII whitespace
characters (the inputs of interest contain only spaces). -/
def jsWhitespaceChar (c : Char) : Bool :=
  c == ' ' || c == '\t' || c == '\n' || c == '\r' || c == '\x0b' || c == '\x0c'

/-- The character class `\d`. -/
def isDigitChar (c : Char) : Bool :=
  '0' ≤ c && c ≤ '9'

/-- The class `[,\s]` separating the two numbers of the coordinate pattern. -/
def isSepChar (c : Char) : Bool :=
  c == ',' || jsWhitespaceChar c

/-- `String.prototype.trim()`. -/
def jsTrim (s : List Char) : List Char :=
  ((s.dropWhile jsWhitespaceChar).reverse.dropWhile jsWhitespaceChar).reverse

/-- A maximal match of the number subpattern `-?\d+\.?\d*`. -/
structure NumToken where
  neg : Bool
  intDigits : List Char
  fracDigits : List Char
deriving DecidableEq

/-- Match `-?\d+\.?\d*` at the front of the input, greedily, returning the
token and the unconsumed rest; `none` when the mandatory `\d+` is empty.
Greedy matching is faithful here because the number characters (`-`, digits,
`.`) and the separator characters (`,`, whitespace) are disjoint classes, so
the regexp has no other way to decompose an accepted input. -/
def matchNumber (cs : List Char) : Option (NumToken × List Char) :=
  let (neg, cs1) : Bool × List Char :=
    match cs with
    | '-' :: t => (true, t)
    | _ => (false, cs)
  let (ds, cs2) := cs1.span isDigitChar
  if ds.isEmpty then none
  else
    let (fs, cs3) : List Char × List Char :=
      match cs2 with
      | '.' :: t => t.span isDigitChar
      | _ => ([], cs2)
    some (⟨neg, ds, fs⟩, cs3)

/-- Full-string match of the coordinate pattern
`/^(-?\d+\.?\d*)[,\s]+(-?\d+\.?\d*)$/`. -/
def coordMatch (cs : List Char) : Option (NumToken × NumToken) :=
  match matchNumber cs with
  | none => none
  | some (a, rest) =>
      let (seps, rest2) := rest.span isSepChar
      if seps.isEmpty then none
      else
        match matchNumber rest2 with
        | none => none
        | some (b, rest3) => if rest3.isEmpty then some (a, b) else none

/-- Digit-string value. -/
def digitsToNat (ds : List Char) : ℕ :=
  ds.foldl (fun n c => 10 * n + (c.toNat - '0'.toNat)) 0

/-- `parseFloat` on a string matched by `-?\d+\.?\d*`: the exact decimal
value. -/
def numValue (t : NumToken) : ℝ :=
  (if t.neg then -1 else 1) *
    ((digitsToNat t.intDigits : ℝ) +
      (digitsToNat t.fracDigits : ℝ) / 10 ^ t.fracDigits.length)

/-- The classification returned by `parseInput`
(`{type: 'coordinates' | 'pincode' | 'address', parsed}`). -/
inductive ParsedInput
  | coordinates (lat lng : ℝ)
  | pincode (code : String)
  | address (value : String)

/-- The pincode-or-address tail of `parseInput`: exactly six digits is a
pincode (`/^(\d{6})$/`), everything else is a free-text address. -/
def pincodeOrAddress (t : List Char) : ParsedInput :=
  if t.length = 6 ∧ t.all isDigitChar then .pincode (String.mk t)
  else .address (String.mk t)

/-- `GeocodingService.parseInput`: try the coordinate pattern on the trimmed
input first, accepting it only when both parsed numbers are in valid lat/lng
ranges; then the six-digit pincode pattern; otherwise a free-text address. -/
def parseInput (input : String) : ParsedInput :=
  let t := jsTrim input.data
  match coordMatch t with
  | some (a, b) =>
      let lat := numValue a
      let lng := numValue b
      if -90 ≤ lat ∧ lat ≤ 90 ∧ -180 ≤ lng ∧ lng ≤ 180 then .coordinates lat lng
      else pincodeOrAddress t
  | none => pincodeOrAddress t

/-! ## Supporting theorems -/

theorem atan2_nonneg {y x : ℝ} (hy : 0 ≤ y) : 0 ≤ atan2 y x := by
  unfold atan2
  have hpi := Real.pi_pos
  have harc := Real.neg_pi_div_two_lt_arctan (y / x)
  split
  · have h0 : (0 : ℝ) ≤ y / x := div_nonneg hy (le_of_lt (by assumption))
    have := Real.arctan_strictMono.monotone h0
    rwa [Real.arctan_zero] at this
  split
  · linarith
  split
  · rename_i h1 h2 h3
    exact absurd hy (not_le.mpr h3.2)
  split
  · linarith
  split
  · rename_i h1 h2 h3 h4
    exact absurd hy (not_le.mpr h4.2)
  · exact le_refl 0

theorem atan2_pos {y x : ℝ} (hy : 0 < y) (hx : 0 ≤ x) : 0 < atan2 y x := by
  unfold atan2
  rcases lt_or_eq_of_le hx with hx' | hx'
  · rw [if_pos hx']
    have := Real.arctan_strictMono (div_pos hy hx')
    rwa [Real.arctan_zero] at this
  · rw [if_neg (by rw [← hx']; exact lt_irrefl 0),
      if_neg (by rw [← hx']; exact fun h => lt_irrefl 0 h.1),
      if_neg (by rw [← hx']; exact fun h => lt_irrefl 0 h.1),
      if_pos ⟨hx'.symm, hy⟩]
    positivity

theorem atan2_zero_one : atan2 0 1 = 0 := by
  unfold atan2
  rw [if_pos one_pos]
  simp [Real.arctan_zero]

theorem costPerKm_pos (m : TransportMode) : 0 < (TRANSPORT_MODES m).costPerKm := by
  cases m <;> norm_num [TRANSPORT_MODES]

theorem maxSpeed_pos (m : TransportMode) : 0 < (TRANSPORT_MODES m).maxSpeed := by
  cases m <;> norm_num [TRANSPORT_MODES]

theorem calculateStraightLineDistance_eq (start endp : RoutePoint) :
    calculateStraightLineDistance start endp =
      6371000 * (2 * atan2 (Real.sqrt (havA start endp))
        (Real.sqrt (1 - havA start endp))) := rfl

theorem calculateStraightLineDistance_nonneg (start endp : RoutePoint) :
    0 ≤ calculateStraightLineDistance start endp := by
  rw [calculateStraightLineDistance_eq]
  have h := atan2_nonneg (x := Real.sqrt (1 - havA start endp))
    (Real.sqrt_nonneg (havA start endp))
  positivity

theorem calculateStraightLineDistance_self (p : RoutePoint) :
    calculateStraightLineDistance p p = 0 := by
  rw [calculateStraightLineDistance_eq]
  have hA : havA p p = 0 := by
    unfold havA
    simp
  rw [hA]
  norm_num [atan2_zero_one]

theorem deg_le_deg {x y : ℝ} (h : x ≤ y) : x * π / 180 ≤ y * π / 180 := by
  have h' := mul_le_mul_of_nonneg_right h
    (le_of_lt (div_pos Real.pi_pos (by norm_num : (0:ℝ) < 180)))
  calc x * π / 180 = x * (π / 180) := by ring
    _ ≤ y * (π / 180) := h'
    _ = y * π / 180 := by ring

theorem deg_lt_deg {x y : ℝ} (h : x < y) : x * π / 180 < y * π / 180 := by
  have h' := mul_lt_mul_of_pos_right h
    (div_pos Real.pi_pos (by norm_num : (0:ℝ) < 180))
  calc x * π / 180 = x * (π / 180) := by ring
    _ < y * (π / 180) := h'
    _ = y * π / 180 := by ring

theorem calculateStraightLineDistance_pos (p q : RoutePoint)
    (hp1 : -90 < p.lat) (hp2 : p.lat < 90) (hp3 : -180 < p.lng) (hp4 : p.lng ≤ 180)
    (hq1 : -90 < q.lat) (hq2 : q.lat < 90) (hq3 : -180 < q.lng) (hq4 : q.lng ≤ 180)
    (hne : p ≠ q) :
    0 < calculateStraightLineDistance p q := by
  have hpi := Real.pi_pos
  have hb1 : -(π / 2) ≤ p.lat * π / 180 := by
    have := deg_le_deg (le_of_lt hp1)
    linarith
  have hb2 : p.lat * π / 180 ≤ π / 2 := by
    have := deg_le_deg (le_of_lt hp2)
    linarith
  have hb3 : -(π / 2) ≤ q.lat * π / 180 := by
    have := deg_le_deg (le_of_lt hq1)
    linarith
  have hb4 : q.lat * π / 180 ≤ π / 2 := by
    have := deg_le_deg (le_of_lt hq2)
    linarith
  have hApos : 0 < havA p q := by
    have hc1 : 0 ≤ Real.cos (p.lat * π / 180) :=
      Real.cos_nonneg_of_mem_Icc ⟨hb1, hb2⟩
    have hc2 : 0 ≤ Real.cos (q.lat * π / 180) :=
      Real.cos_nonneg_of_mem_Icc ⟨hb3, hb4⟩
    have hterm2 : 0 ≤ Real.cos (p.lat * π / 180) * Real.cos (q.lat * π / 180) *
        Real.sin ((q.lng - p.lng) * π / 180 / 2) *
        Real.sin ((q.lng - p.lng) * π / 180 / 2) := by
      rw [mul_assoc]
      exact mul_nonneg (mul_nonneg hc1 hc2) (mul_self_nonneg _)
    rcases ne_or_eq p.lat q.lat with hlat | hlat
    · -- the latitude term is strictly positive
      have hs : Real.sin ((q.lat - p.lat) * π / 180 / 2) ≠ 0 := by
        intro h0
        have hlo : -π < (q.lat - p.lat) * π / 180 / 2 := by
          have := deg_lt_deg (show (-180 : ℝ) < q.lat - p.lat by linarith)
          linarith
        have hhi : (q.lat - p.lat) * π / 180 / 2 < π := by
          have := deg_lt_deg (show q.lat - p.lat < (180 : ℝ) by linarith)
          linarith
        rw [Real.sin_eq_zero_iff_of_lt_of_lt hlo hhi] at h0
        have h1 : (q.lat - p.lat) * π = 0 := by linarith
        rcases mul_eq_zero.mp h1 with h2 | h2
        · exact hlat (by linarith)
        · exact absurd h2 (ne_of_gt hpi)
      have h1 : 0 < Real.sin ((q.lat - p.lat) * π / 180 / 2) *
          Real.sin ((q.lat - p.lat) * π / 180 / 2) := mul_self_pos.mpr hs
      unfold havA
      linarith
    · -- latitudes equal, so the longitudes differ
      have hlng : p.lng ≠ q.lng := by
        intro h
        exact hne (RoutePoint.ext hlat h)
      have hc1' : 0 < Real.cos (p.lat * π / 180) := by
        apply Real.cos_pos_of_mem_Ioo
        refine ⟨?_, ?_⟩
        · have := deg_lt_deg hp1
          linarith
        · have := deg_lt_deg hp2
          linarith
      have hc2' : 0 < Real.cos (q.lat * π / 180) := by
        apply Real.cos_pos_of_mem_Ioo
        refine ⟨?_, ?_⟩
        · have := deg_lt_deg hq1
          linarith
        · have := deg_lt_deg hq2
          linarith
      have hs : Real.sin ((q.lng - p.lng) * π / 180 / 2) ≠ 0 := by
        intro h0
        have hlo : -π < (q.lng - p.lng) * π / 180 / 2 := by
          have := deg_lt_deg (show (-360 : ℝ) < q.lng - p.lng by linarith)
          linarith
        have hhi : (q.lng - p.lng) * π / 180 / 2 < π := by
          have := deg_lt_deg (show q.lng - p.lng < (360 : ℝ) by linarith)
          linarith
        rw [Real.sin_eq_zero_iff_of_lt_of_lt hlo hhi] at h0
        have h1 : (q.lng - p.lng) * π = 0 := by linarith
        rcases mul_eq_zero.mp h1 with h2 | h2
        · exact hlng (by linarith)
        · exact absurd h2 (ne_of_gt hpi)
      have h2 : 0 < Real.sin ((q.lng - p.lng) * π / 180 / 2) *
          Real.sin ((q.lng - p.lng) * π / 180 / 2) := mul_self_pos.mpr hs
      have h3 : 0 < Real.cos (p.lat * π / 180) * Real.cos (q.lat * π / 180) *
          Real.sin ((q.lng - p.lng) * π / 180 / 2) *
          Real.sin ((q.lng - p.lng) * π / 180 / 2) := by
        rw [mul_assoc]
        exact mul_pos (mul_pos hc1' hc2') h2
      have h4 := mul_self_nonneg (Real.sin ((q.lat - p.lat) * π / 180 / 2))
      unfold havA
      linarith
  rw [calculateStraightLineDistance_eq]
  have hsq : 0 < Real.sqrt (havA p q) := Real.sqrt_pos.mpr hApos
  have h := atan2_pos hsq (Real.sqrt_nonneg (1 - havA p q))
  positivity

theorem calculateRoute_networkError (start endp : RoutePoint) (m : TransportMode) :
    calculateRoute .networkError start endp m = fallbackRoute start endp m := rfl

theorem calculateRoute_httpNotOk (s : ℕ) (start endp : RoutePoint) (m : TransportMode) :
    calculateRoute (.httpNotOk s) start endp m = fallbackRoute start endp m := rfl

theorem calculateRoute_noRoutes (start endp : RoutePoint) (m : TransportMode) :
    calculateRoute (.ok []) start endp m = fallbackRoute start endp m := rfl

theorem findNearest_fst_mem (dist : ℕ → ℝ) (head : ℕ) (rest : List ℕ) :
    (findNearest dist head rest).1 ∈ head :: rest := by
  unfold findNearest
  suffices h : ∀ (l : List ℕ) (init : ℕ × ℝ) (acc : List ℕ), init.1 ∈ acc →
      (∀ i ∈ l, i ∈ acc) →
      (l.foldl (fun best i => if dist i < best.2 then (i, dist i) else best) init).1 ∈ acc by
    exact h rest (head, dist head) (head :: rest) (List.mem_cons_self head rest)
      (fun i hi => List.mem_cons_of_mem head hi)
  intro l
  induction l with
  | nil => intro init acc h1 _; simpa using h1
  | cons x xs ih =>
      intro init acc h1 h2
      simp only [List.foldl_cons]
      by_cases hx : dist x < init.2
      · rw [if_pos hx]
        exact ih _ _ (h2 x (List.mem_cons_self x xs)) (fun i hi => h2 i (List.mem_cons_of_mem x hi))
      · rw [if_neg hx]
        exact ih _ _ h1 (fun i hi => h2 i (List.mem_cons_of_mem x hi))

theorem nnLoop_order_perm (points : List RoutePoint) (maxSpeed : ℝ) :
    ∀ (n : ℕ) (unvisited : List ℕ), unvisited.length ≤ n → unvisited.Nodup →
    ∀ (current : ℕ) (order : List ℕ) (td tu : ℝ),
      (nnLoop points maxSpeed current unvisited order td tu).1.Perm (order ++ unvisited) := by
  intro n
  induction n with
  | zero =>
      intro unvisited hlen _ current order td tu
      have : unvisited = [] := List.eq_nil_of_length_eq_zero (Nat.le_zero.mp hlen)
      subst this
      simp [nnLoop]
  | succ n ih =>
      intro unvisited hlen hnd current order td tu
      match unvisited with
      | [] => simp [nnLoop]
      | h :: t =>
          rw [nnLoop]
          set nd := findNearest
            (fun i => calculateStraightLineDistance (points.getD current ⟨0, 0⟩)
              (points.getD i ⟨0, 0⟩)) h t with hnd'
          have hmem : nd.1 ∈ h :: t := findNearest_fst_mem _ h t
          have hflt : ((h :: t).filter (fun i => i != nd.1)).length < (h :: t).length := by
            simp only [List.length_filter_lt_length_iff_exists]
            exact ⟨nd.1, hmem, by simp⟩
          have hlen' : ((h :: t).filter (fun i => i != nd.1)).length ≤ n := by
            have := hlen
            simp only [List.length_cons] at this
            omega
          have hnd2 : ((h :: t).filter (fun i => i != nd.1)).Nodup := hnd.filter _
          have hperm := ih _ hlen' hnd2 nd.1 (order ++ [nd.1])
            (td + nd.2) (tu + nd.2 / 1000 / maxSpeed * 3600)
          refine hperm.trans ?_
          have hback : (nd.1 :: (h :: t).filter (fun i => i != nd.1)).Perm (h :: t) := by
            rw [← hnd.erase_eq_filter nd.1]
            exact (List.perm_cons_erase hmem).symm
          rw [List.append_assoc]
          exact List.Perm.append_left order hback

theorem range_eq_zero_cons_drop {n : ℕ} (h : 1 ≤ n) :
    List.range n = 0 :: (List.range n).drop 1 := by
  obtain ⟨m, rfl⟩ := Nat.exists_eq_add_of_le h
  rw [Nat.add_comm, List.range_succ_eq_map]
  rfl

theorem optimizeRoute_order_perm (points : List RoutePoint) (m : TransportMode) :
    (optimizeRoute points m).optimizedOrder.Perm (List.range points.length) := by
  unfold optimizeRoute
  split
  · exact List.Perm.refl _
  · rename_i hgt
    have hn : 1 ≤ points.length := by omega
    have hnd : ((List.range points.length).drop 1).Nodup :=
      (List.drop_sublist 1 (List.range points.length)).nodup (List.nodup_range _)
    have hperm := nnLoop_order_perm points (TRANSPORT_MODES m).maxSpeed
      ((List.range points.length).drop 1).length ((List.range points.length).drop 1)
      (le_refl _) hnd 0 [0] 0 0
    simp only
    refine hperm.trans ?_
    have h0 : ([0] : List ℕ) ++ (List.range points.length).drop 1 =
        List.range points.length := by
      rw [List.singleton_append, ← range_eq_zero_cons_drop hn]
    rw [h0]

theorem foldl_choice_mem {α : Type} (f : α → α → Prop) [inst : ∀ a b : α, Decidable (f a b)]
    (l : List α) (init : α) (acc : List α) (h1 : init ∈ acc) (h2 : ∀ i ∈ l, i ∈ acc) :
    l.foldl (fun best option => if f option best then option else best) init ∈ acc := by
  induction l generalizing init with
  | nil => simpa using h1
  | cons x xs ih =>
      simp only [List.foldl_cons]
      by_cases hx : f x init
      · rw [if_pos hx]
        exact ih _ (h2 x (List.mem_cons_self x xs)) (fun i hi => h2 i (List.mem_cons_of_mem x hi))
      · rw [if_neg hx]
        exact ih _ h1 (fun i hi => h2 i (List.mem_cons_of_mem x hi))

theorem bestOption_mem (objective : Objective) (o : RouteOption) (os : List RouteOption) :
    bestOption objective (o :: os) ∈ o :: os := by
  have hinit : o ∈ o :: os := List.mem_cons_self o os
  have hsub : ∀ i ∈ os, i ∈ o :: os := fun i hi => List.mem_cons_of_mem o hi
  cases objective with
  | cost => exact foldl_choice_mem (fun a b => a.cost < b.cost) os o _ hinit hsub
  | time => exact foldl_choice_mem (fun a b => a.time < b.time) os o _ hinit hsub
  | distance => exact foldl_choice_mem (fun a b => a.distance < b.distance) os o _ hinit hsub
  | balanced =>
      exact foldl_choice_mem
        (fun a b => balancedScore (o :: os) a < balancedScore (o :: os) b) os o _ hinit hsub

theorem span_all {p : Char → Bool} {l : List Char} (h : ∀ x ∈ l, p x = true) :
    l.span p = (l, []) := by
  rw [List.span_eq_take_drop, List.takeWhile_eq_self_iff.mpr h,
    List.dropWhile_eq_nil_iff.mpr h]

theorem matchNumber_all_digits {c : Char} {t : List Char}
    (h : ∀ x ∈ c :: t, isDigitChar x = true) :
    matchNumber (c :: t) = some (⟨false, c :: t, []⟩, []) := by
  have hc : isDigitChar c = true := h c (List.mem_cons_self c t)
  have hminus : c ≠ '-' := by
    intro he
    rw [he] at hc
    exact absurd hc (by decide)
  rw [matchNumber, span_all h]
  · rfl
  · intro ts heq
    rw [List.cons.injEq] at heq
    exact absurd heq.1 hminus

theorem coordMatch_all_digits {t : List Char} (h : t.all isDigitChar = true) :
    coordMatch t = none := by
  cases t with
  | nil => rfl
  | cons c t2 =>
      have h2 : ∀ x ∈ c :: t2, isDigitChar x = true := by
        simpa [List.all_eq_true] using h
      rw [coordMatch, matchNumber_all_digits h2]
      rfl

/-! ## Claim theorems -/

/-- C2: `calculateRoute` is total: under any backend failure — network error,
non-success HTTP status, or zero candidate routes — it does not raise but
returns the local fallback `RouteResult`: distance is the haversine distance
between start and end, duration is `(distanceKm / maxSpeed) * 3600` seconds,
cost is `round(distanceKm * costPerKm)` with no hourly surcharge, geometry is
exactly `[start, end]`, and there is a single synthetic segment whose
instruction names the distance. -/
theorem calculateRoute_total_fallback (backend : BackendResult)
    (start endp : RoutePoint) (m : TransportMode)
    (hfail : backend = .networkError ∨ (∃ s, backend = .httpNotOk s) ∨
      backend = .ok []) :
    (calculateRoute backend start endp m).distance =
        calculateStraightLineDistance start endp ∧
    (calculateRoute backend start endp m).duration =
        calculateStraightLineDistance start endp / 1000 /
          (TRANSPORT_MODES m).maxSpeed * 3600 ∧
    (calculateRoute backend start endp m).cost =
        ((round (calculateStraightLineDistance start endp / 1000 *
          (TRANSPORT_MODES m).costPerKm) : ℤ) : ℝ) ∧
    (calculateRoute backend start endp m).geometry = [start, endp] ∧
    (calculateRoute backend start endp m).segments =
        [⟨calculateStraightLineDistance start endp,
          calculateStraightLineDistance start endp / 1000 /
            (TRANSPORT_MODES m).maxSpeed * 3600,
          [mkInstruction (calculateStraightLineDistance start endp / 1000)],
          [start, endp]⟩] := by
  rcases hfail with h | ⟨st, h⟩ | h <;> subst h <;>
    exact ⟨rfl, rfl, rfl, rfl, rfl⟩

/-- Witness for C2 at a concrete failing backend and concrete points. -/
theorem calculateRoute_total_fallback_witness :
    (calculateRoute .networkError ⟨12.9716, 77.5946⟩ ⟨12.9349, 77.6197⟩
        .drivingHgv).geometry =
      [⟨12.9716, 77.5946⟩, ⟨12.9349, 77.6197⟩] :=
  (calculateRoute_total_fallback .networkError ⟨12.9716, 77.5946⟩
    ⟨12.9349, 77.6197⟩ .drivingHgv (Or.inl rfl)).2.2.2.1

/-- C3: for every input list of points and every registered transport mode,
`optimizeRoute` returns an order that is a permutation of `0..n-1`, and it is
deterministic — two calls on the same input return identical results. -/
theorem optimizeRoute_perm_and_deterministic (points : List RoutePoint)
    (m : TransportMode) :
    (optimizeRoute points m).optimizedOrder.Perm (List.range points.length) ∧
    optimizeRoute points m = optimizeRoute points m :=
  ⟨optimizeRoute_order_perm points m, rfl⟩

/-- C4: in balanced-objective selection, for an edge whose two evaluated
options are `{cost:100, time:1, distance:10}` and `{cost:200, time:2,
distance:20}`, the per-edge-normalized weighted scores (0.4/0.3/0.3) are 0.5
and 1.0, and the first option is selected. -/
theorem balanced_worked_example :
    balancedScore
        [⟨.drivingHgv, 100, 1, 10⟩, ⟨.drivingCar, 200, 2, 20⟩]
        ⟨.drivingHgv, 100, 1, 10⟩ = 0.5 ∧
    balancedScore
        [⟨.drivingHgv, 100, 1, 10⟩, ⟨.drivingCar, 200, 2, 20⟩]
        ⟨.drivingCar, 200, 2, 20⟩ = 1 ∧
    bestOption .balanced
        [⟨.drivingHgv, 100, 1, 10⟩, ⟨.drivingCar, 200, 2, 20⟩] =
      ⟨.drivingHgv, 100, 1, 10⟩ := by
  have hmaxc : maxOf ([⟨.drivingHgv, 100, 1, 10⟩,
      (⟨.drivingCar, 200, 2, 20⟩ : RouteOption)].map RouteOption.cost) = 200 := by
    norm_num [maxOf, max_def]
  have hmaxt : maxOf ([⟨.drivingHgv, 100, 1, 10⟩,
      (⟨.drivingCar, 200, 2, 20⟩ : RouteOption)].map RouteOption.time) = 2 := by
    norm_num [maxOf, max_def]
  have hmaxd : maxOf ([⟨.drivingHgv, 100, 1, 10⟩,
      (⟨.drivingCar, 200, 2, 20⟩ : RouteOption)].map RouteOption.distance) = 20 := by
    norm_num [maxOf, max_def]
  have h1 : balancedScore
      [⟨.drivingHgv, 100, 1, 10⟩, ⟨.drivingCar, 200, 2, 20⟩]
      ⟨.drivingHgv, 100, 1, 10⟩ = 0.5 := by
    unfold balancedScore
    rw [hmaxc, hmaxt, hmaxd]
    norm_num
  have h2 : balancedScore
      [⟨.drivingHgv, 100, 1, 10⟩, ⟨.drivingCar, 200, 2, 20⟩]
      ⟨.drivingCar, 200, 2, 20⟩ = 1 := by
    unfold balancedScore
    rw [hmaxc, hmaxt, hmaxd]
    norm_num
  refine ⟨h1, h2, ?_⟩
  unfold bestOption
  simp only [List.foldl_cons, List.foldl_nil]
  rw [h1, h2, if_neg (by norm_num)]

/-- C6: for every list of at most two points and every mode, `optimizeRoute`
returns the identity order `[0 .. n-1]` with all totals zero. -/
theorem optimizeRoute_degenerate (points : List RoutePoint) (m : TransportMode)
    (h : points.length ≤ 2) :
    optimizeRoute points m =
      ⟨List.range points.length, 0, 0, 0⟩ := by
  unfold optimizeRoute
  rw [if_pos h]

/-- Witness for C6 on a concrete two-point list. -/
theorem optimizeRoute_degenerate_witness :
    optimizeRoute [⟨12.9716, 77.5946⟩, ⟨12.9349, 77.6197⟩] .drivingHgv =
      ⟨[0, 1], 0, 0, 0⟩ := by
  have h := optimizeRoute_degenerate
    [⟨12.9716, 77.5946⟩, ⟨12.9349, 77.6197⟩] .drivingHgv (by simp)
  simpa using h

/-- C5 (amended): for distinct points with latitudes strictly inside
`(-90, 90)` and longitudes in `(-180, 180]` (so that the two points are not
identified on the sphere — the original claim fails at the poles), the
fallback path of `calculateRoute` returns a strictly positive distance and
duration and a nonnegative cost; and for `p = q` it returns distance 0. -/
theorem calculateRoute_metrics_amended :
    (∀ (m : TransportMode) (p q : RoutePoint),
      -90 < p.lat → p.lat < 90 → -180 < p.lng → p.lng ≤ 180 →
      -90 < q.lat → q.lat < 90 → -180 < q.lng → q.lng ≤ 180 → p ≠ q →
      0 < (calculateRoute .networkError p q m).distance ∧
      0 < (calculateRoute .networkError p q m).duration ∧
      0 ≤ (calculateRoute .networkError p q m).cost) ∧
    (∀ (m : TransportMode) (p : RoutePoint),
      (calculateRoute .networkError p p m).distance = 0) := by
  constructor
  · intro m p q hp1 hp2 hp3 hp4 hq1 hq2 hq3 hq4 hne
    have hd : 0 < calculateStraightLineDistance p q :=
      calculateStraightLineDistance_pos p q hp1 hp2 hp3 hp4 hq1 hq2 hq3 hq4 hne
    refine ⟨hd, ?_, ?_⟩
    · show 0 < calculateStraightLineDistance p q / 1000 /
        (TRANSPORT_MODES m).maxSpeed * 3600
      have hs := maxSpeed_pos m
      positivity
    · show (0 : ℝ) ≤ ((round (calculateStraightLineDistance p q / 1000 *
        (TRANSPORT_MODES m).costPerKm) : ℤ) : ℝ)
      have hc := costPerKm_pos m
      have harg : 0 ≤ calculateStraightLineDistance p q / 1000 *
          (TRANSPORT_MODES m).costPerKm := by positivity
      have hr : (0 : ℤ) ≤ round (calculateStraightLineDistance p q / 1000 *
          (TRANSPORT_MODES m).costPerKm) := by
        rw [round_eq]
        positivity
      exact_mod_cast hr
  · intro m p
    show calculateStraightLineDistance p p = 0
    exact calculateStraightLineDistance_self p

/-- Witness for C5 (amended) at concrete distinct in-range points. -/
theorem calculateRoute_metrics_amended_witness :
    0 < (calculateRoute .networkError ⟨12.9716, 77.5946⟩ ⟨12.9349, 77.6197⟩
      .drivingHgv).distance :=
  (calculateRoute_metrics_amended.1 .drivingHgv ⟨12.9716, 77.5946⟩
    ⟨12.9349, 77.6197⟩ (by norm_num) (by norm_num) (by norm_num) (by norm_num)
    (by norm_num) (by norm_num) (by norm_num) (by norm_num)
    (by norm_num [RoutePoint.mk.injEq])).1

/-- C5 counterexample: `(90, 0)` and `(90, 90)` are distinct points inside the
valid latitude/longitude ranges (`-90 ≤ lat ≤ 90`, `-180 ≤ lng ≤ 180`), yet
the haversine fallback distance between them is exactly 0 — both denote the
north pole — so the claim "`distanceMeters > 0` for every pair of distinct
valid points" is false as stated. -/
theorem calculateRoute_pole_counterexample :
    (RoutePoint.mk 90 0 ≠ RoutePoint.mk 90 90) ∧
    ((-90 : ℝ) ≤ 90 ∧ (90 : ℝ) ≤ 90 ∧ (-180 : ℝ) ≤ 0 ∧ (0 : ℝ) ≤ 180 ∧
      (-180 : ℝ) ≤ 90 ∧ (90 : ℝ) ≤ 180) ∧
    (calculateRoute .networkError ⟨90, 0⟩ ⟨90, 90⟩ .drivingHgv).distance = 0 := by
  refine ⟨by norm_num [RoutePoint.mk.injEq], by norm_num, ?_⟩
  show calculateStraightLineDistance ⟨90, 0⟩ ⟨90, 90⟩ = 0
  have h90 : (90 : ℝ) * π / 180 = π / 2 := by ring
  have hA : havA ⟨90, 0⟩ ⟨90, 90⟩ = 0 := by
    unfold havA
    simp only
    rw [h90]
    simp [Real.cos_pi_div_two]
  rw [calculateStraightLineDistance_eq, hA]
  norm_num [atan2_zero_one]

/-- C9: an edge whose `from`/`to` name does not resolve in the node list is
skipped: it yields no recommendation and no savings contribution, and removing
it from the edge list leaves the recommendations and all three aggregate
savings of `optimizeTransportModes` unchanged (processing of the other edges
continues; the operation itself is total by construction). -/
theorem optimizeTransportModes_skips_missing_endpoint
    (xs ys : List Edge) (e : Edge) (nodes : List Node) (objective : Objective)
    (oracle : Oracle)
    (h : nodes.find? (fun n => n.name == e.fromName) = none ∨
         nodes.find? (fun n => n.name == e.toName) = none) :
    processEdge nodes objective oracle e = none ∧
    (optimizeTransportModes (xs ++ e :: ys) nodes objective oracle).recommendations =
      (optimizeTransportModes (xs ++ ys) nodes objective oracle).recommendations ∧
    (optimizeTransportModes (xs ++ e :: ys) nodes objective oracle).savingsCost =
      (optimizeTransportModes (xs ++ ys) nodes objective oracle).savingsCost ∧
    (optimizeTransportModes (xs ++ e :: ys) nodes objective oracle).savingsTime =
      (optimizeTransportModes (xs ++ ys) nodes objective oracle).savingsTime ∧
    (optimizeTransportModes (xs ++ e :: ys) nodes objective oracle).savingsDistance =
      (optimizeTransportModes (xs ++ ys) nodes objective oracle).savingsDistance := by
  have hnone : processEdge nodes objective oracle e = none := by
    unfold processEdge
    rcases h with h | h
    · rw [h]
    · rcases hfo : nodes.find? (fun n => n.name == e.fromName) with _ | f <;>
        rw [hfo, h]
  have hsplit : (xs ++ e :: ys).filterMap (processEdge nodes objective oracle) =
      (xs ++ ys).filterMap (processEdge nodes objective oracle) := by
    rw [List.filterMap_append, List.filterMap_append,
      List.filterMap_cons_none hnone]
  refine ⟨hnone, ?_, ?_, ?_, ?_⟩ <;>
    · simp only [optimizeTransportModes]
      rw [hsplit]

/-- Witness for C9: a concrete edge pointing at a missing node name is
skipped. -/
theorem optimizeTransportModes_skips_missing_endpoint_witness :
    processEdge [⟨"A", 77.5946, 12.9716⟩] .cost
      (fun _ _ _ => ⟨0, 0, [], [], 0⟩)
      ⟨"A", "MISSING", 10, 1, 100, none⟩ = none :=
  (optimizeTransportModes_skips_missing_endpoint [] [] ⟨"A", "MISSING", 10, 1, 100, none⟩
    [⟨"A", 77.5946, 12.9716⟩] .cost (fun _ _ _ => ⟨0, 0, [], [], 0⟩)
    (Or.inr rfl)).1

/-- C8: `geocode` is memoized by the `(query, options)` key: after a first
call that reaches the backend successfully, a second call with the same query
and options returns the identical cached list, performs no backend call, and
leaves the cache unchanged — one backend invocation across the two calls; and
an existing cache entry is never evicted or overwritten by any call, so each
key is written at most once. -/
theorem geocode_memoized
    (backend : String → GeoOptions → GeoBackendResult) (c0 : CacheMap)
    (q : String) (o : GeoOptions) (items : List RawGeoItem)
    (hmiss : c0 (q, o) = none) (hb : backend q o = .ok items) :
    (geocode backend c0 q o).backendCalled = true ∧
    (geocode backend (geocode backend c0 q o).cache q o).backendCalled = false ∧
    (geocode backend (geocode backend c0 q o).cache q o).results =
      (geocode backend c0 q o).results ∧
    (geocode backend (geocode backend c0 q o).cache q o).cache =
      (geocode backend c0 q o).cache ∧
    (∀ (c : CacheMap) (q2 : String) (o2 : GeoOptions) (k : String × GeoOptions)
        (v : List GeocodingResult),
      c k = some v → (geocode backend c q2 o2).cache k = some v) := by
  have h1 : geocode backend c0 q o =
      ⟨((items.map mapRawItem).filter (fun r => isWithinBengaluru r.lat r.lng)),
        fun k => if k = (q, o) then
          some ((items.map mapRawItem).filter (fun r => isWithinBengaluru r.lat r.lng))
        else c0 k, true⟩ := by
    unfold geocode
    rw [hmiss, hb]
  have hhit : (geocode backend c0 q o).cache (q, o) =
      some ((items.map mapRawItem).filter (fun r => isWithinBengaluru r.lat r.lng)) := by
    rw [h1]
    exact if_pos rfl
  have h2 : geocode backend (geocode backend c0 q o).cache q o =
      ⟨((items.map mapRawItem).filter (fun r => isWithinBengaluru r.lat r.lng)),
        (geocode backend c0 q o).cache, false⟩ := by
    set c1 := (geocode backend c0 q o).cache with hc1
    unfold geocode
    rw [hhit]
  refine ⟨by rw [h1], by rw [h2], by rw [h2, h1], by rw [h2], ?_⟩
  intro c q2 o2 k v hk
  unfold geocode
  rcases hc : c (q2, o2) with _ | l
  · rcases hbo : backend q2 o2 with _ | its
    · exact hk
    · have hkne : k ≠ (q2, o2) := by
        intro hkeq
        rw [hkeq, hc] at hk
        exact Option.noConfusion hk
      simp only
      rw [if_neg hkne]
      exact hk
  · exact hk

/-- Witness for C8 with a stub backend and an empty starting cache. -/
theorem geocode_memoized_witness :
    (geocode (fun _ _ => .ok []) (fun _ => none) "Forum Mall"
      ⟨none, none, none, none⟩).backendCalled = true ∧
    (geocode (fun _ _ => .ok [])
      (geocode (fun _ _ => .ok []) (fun _ => none) "Forum Mall"
        ⟨none, none, none, none⟩).cache "Forum Mall"
      ⟨none, none, none, none⟩).backendCalled = false := by
  have h := geocode_memoized (fun _ _ => .ok []) (fun _ => none) "Forum Mall"
    ⟨none, none, none, none⟩ [] rfl rfl
  exact ⟨h.1, h.2.1⟩

/-- C10: on a backend failure, `geocode` returns the empty list and leaves the
cache unchanged — no entry is written for the failed key — so a subsequent
call with the same query and options contacts the backend again; only
successful lookups are memoized. -/
theorem geocode_failure_not_cached
    (backend : String → GeoOptions → GeoBackendResult) (c0 : CacheMap)
    (q : String) (o : GeoOptions)
    (hmiss : c0 (q, o) = none) (hb : backend q o = .failure) :
    (geocode backend c0 q o).results = [] ∧
    (geocode backend c0 q o).cache = c0 ∧
    (geocode backend c0 q o).backendCalled = true ∧
    (geocode backend (geocode backend c0 q o).cache q o).backendCalled = true := by
  have h1 : geocode backend c0 q o = ⟨[], c0, true⟩ := by
    unfold geocode
    rw [hmiss, hb]
  refine ⟨by rw [h1], by rw [h1], by rw [h1], ?_⟩
  rw [h1]
  show (geocode backend c0 q o).backendCalled = true
  rw [h1]

/-- Witness for C10 with a stub failing backend. -/
theorem geocode_failure_not_cached_witness :
    (geocode (fun _ _ => .failure) (fun _ => none) "Forum Mall"
      ⟨none, none, none, none⟩).results = [] ∧
    (geocode (fun _ _ => .failure)
      (geocode (fun _ _ => .failure) (fun _ => none) "Forum Mall"
        ⟨none, none, none, none⟩).cache "Forum Mall"
      ⟨none, none, none, none⟩).backendCalled = true := by
  have h := geocode_failure_not_cached (fun _ _ => .failure) (fun _ => none)
    "Forum Mall" ⟨none, none, none, none⟩ rfl rfl
  exact ⟨h.1, h.2.2.2⟩

/-- C1: every recommendation emitted by `optimizeTransportModes` comes from an
edge whose endpoints both resolved, its recommended mode is the objective-best
mode of that edge's evaluated options and differs from the edge's current mode
(default `driving-hgv` when unset), and at least one of the cost/time/distance
deltas against the edge's current values is strictly positive — it never
emits a recommendation whose selected mode does not strictly improve at least
one of cost, time or distance. -/
theorem optimizeTransportModes_strict_improvement
    (edges : List Edge) (nodes : List Node) (objective : Objective)
    (oracle : Oracle) (r : Recommendation)
    (hr : r ∈ (optimizeTransportModes edges nodes objective oracle).recommendations) :
    r.recommendedMode ≠ r.currentMode ∧
    ∃ e ∈ edges, ∃ fromNode toNode : Node,
      nodes.find? (fun n => n.name == e.fromName) = some fromNode ∧
      nodes.find? (fun n => n.name == e.toName) = some toNode ∧
      r.fromName = e.fromName ∧ r.toName = e.toName ∧
      r.currentMode = e.transportMode.getD .drivingHgv ∧
      (bestOption objective (evalOptions oracle fromNode toNode)).mode =
        r.recommendedMode ∧
      (0 < e.cost - (bestOption objective (evalOptions oracle fromNode toNode)).cost ∨
       0 < e.travelTimeHr -
         (bestOption objective (evalOptions oracle fromNode toNode)).time ∨
       0 < e.distanceKm -
         (bestOption objective (evalOptions oracle fromNode toNode)).distance) := by
  obtain ⟨c, hc, hcr⟩ := List.mem_map.mp hr
  obtain ⟨e, he, hfe⟩ := List.mem_filterMap.mp hc
  subst hcr
  rcases hfrom : nodes.find? (fun n => n.name == e.fromName) with _ | fromNode
  · rw [processEdge, hfrom] at hfe
    exact absurd hfe (by simp)
  rcases hto : nodes.find? (fun n => n.name == e.toName) with _ | toNode
  · rw [processEdge, hfrom, hto] at hfe
    exact absurd hfe (by simp)
  rcases hev : evalOptions oracle fromNode toNode with _ | ⟨o1, os⟩
  · exact absurd hev (by simp [evalOptions, TRANSPORT_MODE_KEYS])
  simp only [processEdge, hfrom, hto, hev] at hfe
  split_ifs at hfe with hmode himp
  rw [Option.some.injEq] at hfe
  subst hfe
  refine ⟨?_, e, he, fromNode, toNode, hfrom, hto, rfl, rfl, rfl, ?_, ?_⟩
  · simpa using fun h => hmode h
  · rw [hev]
  · rw [hev]
    simpa using himp

/-- Witness for C1: a concrete one-edge network where the cost objective
recommends switching the default heavy-goods edge to walking delivery. -/
theorem optimizeTransportModes_strict_improvement_witness :
    (⟨"A", "B", .drivingHgv, .footWalking, "Lowest cost option", 800⟩ :
        Recommendation) ∈
      (optimizeTransportModes [⟨"A", "B", 20, 2, 850, none⟩]
        [⟨"A", 77.5946, 12.9716⟩, ⟨"B", 77.6197, 12.9349⟩] .cost
        (fun _ _ m => match m with
          | .drivingHgv => ⟨10000, 3600, [], [], 1000⟩
          | .drivingCar => ⟨10000, 3600, [], [], 500⟩
          | .cycling => ⟨10000, 3600, [], [], 100⟩
          | .footWalking => ⟨10000, 3600, [], [], 50⟩)).recommendations ∧
    (⟨"A", "B", .drivingHgv, .footWalking, "Lowest cost option", 800⟩ :
        Recommendation).recommendedMode ≠
      (⟨"A", "B", .drivingHgv, .footWalking, "Lowest cost option", 800⟩ :
        Recommendation).currentMode := by
  have hfA : ([⟨"A", 77.5946, 12.9716⟩, ⟨"B", 77.6197, 12.9349⟩] :
      List Node).find? (fun n => n.name == "A") = some ⟨"A", 77.5946, 12.9716⟩ := rfl
  have hfB : ([⟨"A", 77.5946, 12.9716⟩, ⟨"B", 77.6197, 12.9349⟩] :
      List Node).find? (fun n => n.name == "B") = some ⟨"B", 77.6197, 12.9349⟩ := rfl
  have hev : evalOptions
      (fun _ _ m => match m with
        | .drivingHgv => ⟨10000, 3600, [], [], 1000⟩
        | .drivingCar => ⟨10000, 3600, [], [], 500⟩
        | .cycling => ⟨10000, 3600, [], [], 100⟩
        | .footWalking => ⟨10000, 3600, [], [], 50⟩)
      ⟨"A", 77.5946, 12.9716⟩ ⟨"B", 77.6197, 12.9349⟩ =
      [⟨.drivingHgv, 1000, 3600 / 3600, 10000 / 1000⟩,
       ⟨.drivingCar, 500, 3600 / 3600, 10000 / 1000⟩,
       ⟨.cycling, 100, 3600 / 3600, 10000 / 1000⟩,
       ⟨.footWalking, 50, 3600 / 3600, 10000 / 1000⟩] := rfl
  have hbest : bestOption .cost
      [⟨.drivingHgv, 1000, 3600 / 3600, 10000 / 1000⟩,
       ⟨.drivingCar, 500, 3600 / 3600, 10000 / 1000⟩,
       ⟨.cycling, 100, 3600 / 3600, 10000 / 1000⟩,
       ⟨.footWalking, 50, 3600 / 3600, 10000 / 1000⟩] =
      ⟨.footWalking, 50, 3600 / 3600, 10000 / 1000⟩ := by
    unfold bestOption
    norm_num
  have hedge : processEdge [⟨"A", 77.5946, 12.9716⟩, ⟨"B", 77.6197, 12.9349⟩]
      .cost
      (fun _ _ m => match m with
        | .drivingHgv => ⟨10000, 3600, [], [], 1000⟩
        | .drivingCar => ⟨10000, 3600, [], [], 500⟩
        | .cycling => ⟨10000, 3600, [], [], 100⟩
        | .footWalking => ⟨10000, 3600, [], [], 50⟩)
      ⟨"A", "B", 20, 2, 850, none⟩ =
      some (⟨"A", "B", .drivingHgv, .footWalking, "Lowest cost option", 800⟩,
        800, 1, 10) := by
    rw [processEdge, hfA, hfB]
    simp only [hev, hbest, reasonFor, savingsFor, Option.getD]
    norm_num
    intro h
    exact absurd h (by decide)
  have hm : (⟨"A", "B", .drivingHgv, .footWalking, "Lowest cost option", 800⟩ :
      Recommendation) ∈
      (optimizeTransportModes [⟨"A", "B", 20, 2, 850, none⟩]
        [⟨"A", 77.5946, 12.9716⟩, ⟨"B", 77.6197, 12.9349⟩] .cost
        (fun _ _ m => match m with
          | .drivingHgv => ⟨10000, 3600, [], [], 1000⟩
          | .drivingCar => ⟨10000, 3600, [], [], 500⟩
          | .cycling => ⟨10000, 3600, [], [], 100⟩
          | .footWalking => ⟨10000, 3600, [], [], 50⟩)).recommendations := by
    simp only [optimizeTransportModes, List.filterMap_cons, hedge,
      List.filterMap_nil, List.map_cons, List.map_nil]
    exact List.mem_singleton.mpr rfl
  exact ⟨hm, (optimizeTransportModes_strict_improvement _ _ _ _ _ hm).1⟩

/-- C7: `parseInput` classifies `"12.9716,77.5946"` as coordinates
`{lat: 12.9716, lng: 77.5946}`, `"560001"` as the postal code `"560001"`, and
`"Forum Mall"` as a free-text address; and in general a trimmed input matching
two numbers separated by comma/whitespace with `lat ∈ [-90, 90]` and
`lng ∈ [-180, 180]` is classified as coordinates, exactly six digits as a
postal code, and everything else — including out-of-range number pairs —
falls through to address. -/
theorem parseInput_classification :
    parseInput "12.9716,77.5946" = .coordinates 12.9716 77.5946 ∧
    parseInput "560001" = .pincode "560001" ∧
    parseInput "Forum Mall" = .address "Forum Mall" ∧
    (∀ (s : String) (a b : NumToken),
      coordMatch (jsTrim s.data) = some (a, b) →
      -90 ≤ numValue a → numValue a ≤ 90 → -180 ≤ numValue b → numValue b ≤ 180 →
      parseInput s = .coordinates (numValue a) (numValue b)) ∧
    (∀ s : String, (jsTrim s.data).length = 6 →
      (jsTrim s.data).all isDigitChar = true →
      parseInput s = .pincode (String.mk (jsTrim s.data))) ∧
    (∀ s : String, coordMatch (jsTrim s.data) = none →
      ¬((jsTrim s.data).length = 6 ∧ (jsTrim s.data).all isDigitChar = true) →
      parseInput s = .address (String.mk (jsTrim s.data))) ∧
    (∀ (s : String) (a b : NumToken),
      coordMatch (jsTrim s.data) = some (a, b) →
      ¬(-90 ≤ numValue a ∧ numValue a ≤ 90 ∧ -180 ≤ numValue b ∧ numValue b ≤ 180) →
      parseInput s = .address (String.mk (jsTrim s.data))) := by
  have hgen4 : ∀ (s : String) (a b : NumToken),
      coordMatch (jsTrim s.data) = some (a, b) →
      -90 ≤ numValue a → numValue a ≤ 90 → -180 ≤ numValue b → numValue b ≤ 180 →
      parseInput s = .coordinates (numValue a) (numValue b) := by
    intro s a b hcm h1 h2 h3 h4
    simp only [parseInput, hcm]
    rw [if_pos ⟨h1, h2, h3, h4⟩]
  have hgen5 : ∀ s : String, (jsTrim s.data).length = 6 →
      (jsTrim s.data).all isDigitChar = true →
      parseInput s = .pincode (String.mk (jsTrim s.data)) := by
    intro s h6 hall
    have hcm := coordMatch_all_digits hall
    simp only [parseInput, hcm, pincodeOrAddress]
    rw [if_pos ⟨h6, hall⟩]
  have hgen6 : ∀ s : String, coordMatch (jsTrim s.data) = none →
      ¬((jsTrim s.data).length = 6 ∧ (jsTrim s.data).all isDigitChar = true) →
      parseInput s = .address (String.mk (jsTrim s.data)) := by
    intro s hcm hnot
    simp only [parseInput, hcm, pincodeOrAddress]
    rw [if_neg hnot]
  have hgen7 : ∀ (s : String) (a b : NumToken),
      coordMatch (jsTrim s.data) = some (a, b) →
      ¬(-90 ≤ numValue a ∧ numValue a ≤ 90 ∧ -180 ≤ numValue b ∧ numValue b ≤ 180) →
      parseInput s = .address (String.mk (jsTrim s.data)) := by
    intro s a b hcm hnr
    simp only [parseInput, hcm, pincodeOrAddress]
    rw [if_neg hnr, if_neg ?_]
    intro hc
    rw [coordMatch_all_digits hc.2] at hcm
    exact Option.noConfusion hcm
  refine ⟨?_, ?_, ?_, hgen4, hgen5, hgen6, hgen7⟩
  · have hcm : coordMatch (jsTrim "12.9716,77.5946".data) =
        some (⟨false, ['1','2'], ['9','7','1','6']⟩,
          ⟨false, ['7','7'], ['5','9','4','6']⟩) := by decide
    have hA : numValue ⟨false, ['1','2'], ['9','7','1','6']⟩ = 12.9716 := by
      have d1 : digitsToNat ['1','2'] = 12 := by decide
      have d2 : digitsToNat ['9','7','1','6'] = 9716 := by decide
      norm_num [numValue, d1, d2]
    have hB : numValue ⟨false, ['7','7'], ['5','9','4','6']⟩ = 77.5946 := by
      have d1 : digitsToNat ['7','7'] = 77 := by decide
      have d2 : digitsToNat ['5','9','4','6'] = 5946 := by decide
      norm_num [numValue, d1, d2]
    have h := hgen4 "12.9716,77.5946" _ _ hcm
      (by rw [hA]; norm_num) (by rw [hA]; norm_num)
      (by rw [hB]; norm_num) (by rw [hB]; norm_num)
    rw [h, hA, hB]
  · have h := hgen5 "560001" (by decide) (by decide)
    rw [h]
    have hs : String.mk (jsTrim "560001".data) = "560001" := by decide
    rw [hs]
  · have hcm : coordMatch (jsTrim "Forum Mall".data) = none := by decide
    have h := hgen6 "Forum Mall" hcm (by decide)
    rw [h]
    have hs : String.mk (jsTrim "Forum Mall".data) = "Forum Mall" := by decide
    rw [hs]

/-- Witness for the quantified part of C7: `"1,2"` parses as the coordinate
pair `(1, 2)`. -/
theorem parseInput_classification_witness :
    parseInput "1,2" =
      .coordinates (numValue ⟨false, ['1'], []⟩) (numValue ⟨false, ['2'], []⟩) := by
  have hcm : coordMatch (jsTrim "1,2".data) =
      some (⟨false, ['1'], []⟩, ⟨false, ['2'], []⟩) := by decide
  have d1 : digitsToNat ['1'] = 1 := by decide
  have d2 : digitsToNat ['2'] = 2 := by decide
  have d0 : digitsToNat [] = 0 := by decide
  have hA : numValue ⟨false, ['1'], []⟩ = 1 := by norm_num [numValue, d1, d0]
  have hB : numValue ⟨false, ['2'], []⟩ = 2 := by norm_num [numValue, d2, d0]
  exact parseInput_classification.2.2.2.1 "1,2" _ _ hcm
    (by rw [hA]; norm_num) (by rw [hA]; norm_num)
    (by rw [hB]; norm_num) (by rw [hB]; norm_num)

end Perishables
